import Mathlib

/-!
Verification of the sonar driver (src/unnamed/part_000, a FreeRTOS
STM32 ultrasonic-sensor driver).  The shared variables of the C file
(mode, capture, value, value_cm, IC3Value1, IC3Value2) become the
fields of a state record; the interrupt handler TIM3_IRQHandler and
one iteration of the measurement task vSonarTask become pure functions
on that record.  A per-cycle environment records which interrupts the
simulated hardware delivers (whether the trigger-complete update
interrupt fires, and the captured counter values of the rising and the
falling echo edge, when those capture interrupts fire).
-/

namespace Sonar

/-- Constant SONAR_BAD_VALUE from line 20 of the source: the sentinel
published when a measurement failed. -/
def SONAR_BAD_VALUE : Int := -1

/-- Constant TIM_ECHO_PERIOD = 0xffff from line 42: the 16-bit counter
maximum of the echo timer. -/
def TIM_ECHO_PERIOD : Nat := 0xffff

/-- Constant CONV_CONST_US_CM = 58 from line 46: microseconds per
centimetre of round trip. -/
def CONV_CONST_US_CM : Int := 58

/-- Mode constant TRIGGER (line 49): the driver is emitting the trigger
pulse.  The C variable `mode` is a bool, so the mode is a Bool here. -/
def TRIGGER : Bool := false

/-- Mode constant ECHO (line 50): the driver is measuring the echo. -/
def ECHO : Bool := true

/-- Capture sub-state constant BEGIN (line 53): awaiting the rising
edge of the echo pulse. -/
def BEGIN : Bool := false

/-- Capture sub-state constant END (line 54): awaiting the falling
edge of the echo pulse. -/
def END : Bool := true

/-- The file-scope mutable variables of the driver, lines 51-61 of the
source: `mode` and `capture` drive the interrupt-handler state machine,
`value` stores the echo pulse width in ticks, `value_cm` is the
published distance read by `iSonarMeasureDistCm`, and `IC3Value1`,
`IC3Value2` are the two captured 16-bit counter samples. -/
structure SonarState where
  mode : Bool
  capture : Bool
  value : Int
  value_cm : Int
  IC3Value1 : Nat
  IC3Value2 : Nat
deriving Repr, DecidableEq

/-- The two interrupt sources of the handler: the timer update event
(trigger pulse complete) and the channel-3 capture event (echo edge). -/
inductive IrqSource where
  | update
  | cc3
deriving Repr, DecidableEq

/-- Pulse-width computation of lines 225-230: ordinary difference when
the second capture is larger, wraparound-corrected difference
otherwise; both branches subtract the off-by-one tick.  The C
computation is on `int` (the uint16 operands promote to int), so it is
exact Int arithmetic here. -/
def pulseWidth (v1 v2 : Nat) : Int :=
  if v2 > v1 then ((v2 : Int) - (v1 : Int)) - 1
  else ((0xFFFF - (v1 : Int)) + (v2 : Int)) - 1

/-- The interrupt handler TIM3_IRQHandler, lines 194-239.  `cap` is the
value TIM_GetCapture3 would return (stored through a uint16_t, hence
reduced mod 2^16).  The returned Bool records whether the handler
called xSemaphoreGiveFromISR, i.e. released the synchronization gate.
Register accesses (flag reads, flag clears, the capture-polarity
reprogramming between the two edges) touch no modelled variable. -/
def TIM3_IRQHandler (s : SonarState) (src : IrqSource) (cap : Nat) :
    SonarState × Bool :=
  match src with
  | IrqSource.update =>
    if s.mode = TRIGGER then
      ({ s with mode := ECHO }, true)
    else
      (s, false)
  | IrqSource.cc3 =>
    if s.mode = ECHO then
      if s.capture = BEGIN then
        ({ s with IC3Value1 := cap % 65536, capture := END }, false)
      else
        let v2 := cap % 65536
        ({ s with IC3Value2 := v2, value := pulseWidth s.IC3Value1 v2 }, true)
    else
      (s, false)

/-- Conversion of line 272, `value * TIM_ECHO_TC_US / CONV_CONST_US_CM`
with TIM_ECHO_TC_US = 2.5: modelled exactly as value * 5 / (2 * 58)
with truncation toward zero, which is what the C double computation
followed by the int conversion yields for every tick count the 16-bit
capture timer can produce (2.5 is exact in binary floating point and
the quotient is never within rounding error of a different integer). -/
def convertDistCm (v : Int) : Int :=
  Int.tdiv (v * 5) 116

/-- Accessor iSonarMeasureDistCm, lines 241-244: returns the published
distance variable `value_cm`. -/
def iSonarMeasureDistCm (s : SonarState) : Int :=
  s.value_cm

/-- One-cycle environment: the interrupt events the hardware delivers
during one iteration of the measurement loop.  `triggerFires` says the
update interrupt (end of trigger pulse) arrives before the first
semaphore wait times out; `risingEdge` and `fallingEdge` are the
counter values captured by the two channel-3 edge interrupts during
the echo phase, `none` when that interrupt never fires before the
second wait times out. -/
structure CycleEnv where
  triggerFires : Bool
  risingEdge : Option Nat
  fallingEdge : Option Nat
deriving Repr, DecidableEq

/-- Trigger phase of the measurement task, lines 254-259: set
mode = TRIGGER, send the trigger pulse (hardware only), then wait on
the gate with the 38 ms timeout; the wait succeeds exactly when the
update interrupt fired and released the gate, and on timeout the task
stores SONAR_BAD_VALUE into the published variable. -/
def triggerPhase (s : SonarState) (e : CycleEnv) : SonarState :=
  let s1 : SonarState := { s with mode := TRIGGER }
  if e.triggerFires then
    let r := TIM3_IRQHandler s1 IrqSource.update 0
    if r.2 then r.1 else { r.1 with value_cm := SONAR_BAD_VALUE }
  else
    { s1 with value_cm := SONAR_BAD_VALUE }

/-- Line 262 of the task: reset the capture sub-state to BEGIN before
arming the echo capture (vSetEchoMode itself is hardware only). -/
def captureReset (s : SonarState) : SonarState :=
  { s with capture := BEGIN }

/-- Echo phase of the measurement task, lines 267-272, starting from a
state whose capture sub-state was just reset: the delivered edge
interrupts run the handler in order, the second gate wait succeeds
exactly when one of them released the gate, a timeout stores
SONAR_BAD_VALUE, and then line 272 unconditionally stores the
conversion of the current pulse width into the published variable. -/
def echoPhase (s : SonarState) (e : CycleEnv) : SonarState :=
  let r1 := match e.risingEdge with
    | some c => TIM3_IRQHandler s IrqSource.cc3 c
    | none => (s, false)
  let r2 := match e.fallingEdge with
    | some c => TIM3_IRQHandler r1.1 IrqSource.cc3 c
    | none => (r1.1, false)
  let s3 := if r1.2 || r2.2 then r2.1
            else { r2.1 with value_cm := SONAR_BAD_VALUE }
  { s3 with value_cm := convertDistCm s3.value }

/-- One full iteration of the measurement loop of vSonarTask,
lines 251-276: trigger phase, capture-sub-state reset, echo phase.
The closing 100 ms vTaskDelay changes no modelled variable. -/
def runCycle (s : SonarState) (e : CycleEnv) : SonarState :=
  echoPhase (captureReset (triggerPhase s e)) e

/-- State at the first loop entry: the C statics zero-initialize
(mode = TRIGGER, capture = BEGIN, value = 0, both captures 0) and
line 249 sets value_cm to SONAR_BAD_VALUE. -/
def initState : SonarState :=
  { mode := TRIGGER, capture := BEGIN, value := 0,
    value_cm := SONAR_BAD_VALUE, IC3Value1 := 0, IC3Value2 := 0 }

/-- Environment of the no-echo scenario: the trigger pulse completes
normally but no edge interrupt ever fires during the echo phase. -/
def envNoEdges : CycleEnv :=
  { triggerFires := true, risingEdge := none, fallingEdge := none }

/-- Line 272 is the last write of the iteration, so the published
variable always ends the cycle holding the conversion of the stored
pulse width. -/
lemma runCycle_value_cm (s : SonarState) (e : CycleEnv) :
    (runCycle s e).value_cm = convertDistCm ((runCycle s e).value) := rfl

/-- The stored pulse width after one cycle: when the update interrupt
and both edge interrupts fire it is the width of the delivered edge
pair, otherwise no handler invocation reaches the width computation
and the variable keeps its previous content. -/
lemma runCycle_value (s : SonarState) (e : CycleEnv) :
    (runCycle s e).value =
      match e.triggerFires, e.risingEdge, e.fallingEdge with
      | true, some r, some f => pulseWidth (r % 65536) (f % 65536)
      | _, _, _ => s.value := by
  rcases e with ⟨tf, re, fe⟩
  cases tf <;> rcases re with _ | r <;> rcases fe with _ | f <;>
    simp [runCycle, triggerPhase, captureReset, echoPhase, TIM3_IRQHandler,
          TRIGGER, ECHO, BEGIN, END]

/-- C1: in the scenario where the trigger pulse completes but no edge
interrupt ever fires after the capture phase is armed, the cycle ends
with the published distance equal to 0, the conversion of the
still-initial stored width, not the BAD_VALUE sentinel: line 272
unconditionally overwrites the SONAR_BAD_VALUE stored by the timeout
branch of line 270 before the iteration ends. -/
theorem capture_timeout_publishes_zero_not_bad_value :
    iSonarMeasureDistCm (runCycle initState envNoEdges) = 0 ∧
    iSonarMeasureDistCm (runCycle initState envNoEdges) ≠ SONAR_BAD_VALUE := by
  decide

/-- C2: when the capture-edge handler processes the second edge and
the second captured timestamp exceeds the first, the stored pulse
width is secondEdge - firstEdge - 1 (lines 225-227). -/
theorem width_no_wraparound (s : SonarState) (f c : Nat)
    (hm : s.mode = ECHO) (hc : s.capture = END) (h1 : s.IC3Value1 = f)
    (hcb : c ≤ 65535) (hgt : f < c) :
    ((TIM3_IRQHandler s IrqSource.cc3 c).1).value =
      (c : Int) - (f : Int) - 1 := by
  have hmod : c % 65536 = c := Nat.mod_eq_of_lt (by omega)
  simp [TIM3_IRQHandler, hm, hc, BEGIN, END, hmod, h1, pulseWidth, hgt]

/-- Witness for C2 at firstEdge = 10, secondEdge = 25. -/
theorem width_no_wraparound_witness :
    ((TIM3_IRQHandler
        { mode := ECHO, capture := END, value := 0, value_cm := 0,
          IC3Value1 := 10, IC3Value2 := 0 } IrqSource.cc3 25).1).value =
      (25 : Int) - (10 : Int) - 1 :=
  width_no_wraparound _ 10 25 rfl rfl rfl (by decide) (by decide)

/-- C3: when the capture-edge handler processes the second edge and
the second captured timestamp does not exceed the first (counter
wraparound), the stored pulse width is
(0xFFFF - firstEdge) + secondEdge - 1 (lines 228-230). -/
theorem width_wraparound (s : SonarState) (f c : Nat)
    (hm : s.mode = ECHO) (hc : s.capture = END) (h1 : s.IC3Value1 = f)
    (hcb : c ≤ 65535) (hle : c ≤ f) :
    ((TIM3_IRQHandler s IrqSource.cc3 c).1).value =
      (0xFFFF - (f : Int)) + (c : Int) - 1 := by
  have hmod : c % 65536 = c := Nat.mod_eq_of_lt (by omega)
  have hngt : ¬ (f < c) := by omega
  simp [TIM3_IRQHandler, hm, hc, BEGIN, END, hmod, h1, pulseWidth, hngt]

/-- Witness for C3 at firstEdge = 65000, secondEdge = 500, the
spec scenario giving width 1034. -/
theorem width_wraparound_witness :
    ((TIM3_IRQHandler
        { mode := ECHO, capture := END, value := 0, value_cm := 0,
          IC3Value1 := 65000, IC3Value2 := 0 } IrqSource.cc3 500).1).value =
      (0xFFFF - (65000 : Int)) + (500 : Int) - 1 :=
  width_wraparound _ 65000 500 rfl rfl rfl (by decide) (by decide)

/-- Counterexample to C4: at firstEdge = 65535, secondEdge = 0 (a pair
inside [0, MAX_COUNTER] taking the wraparound branch) the handler
stores width (65535 - 65535) + 0 - 1 = -1, which is negative. -/
theorem wraparound_width_neg_at_corner :
    ((TIM3_IRQHandler
        { mode := ECHO, capture := END, value := 0, value_cm := 0,
          IC3Value1 := 65535, IC3Value2 := 0 } IrqSource.cc3 0).1).value < 0 := by
  decide

/-- C4 amended: for every pair in [0, MAX_COUNTER] taking the
wraparound branch the computed width is at least -1, and it is
nonnegative for every such pair except (65535, 0). -/
theorem wraparound_width_nonneg_off_corner (s : SonarState) (f c : Nat)
    (hm : s.mode = ECHO) (hc : s.capture = END) (h1 : s.IC3Value1 = f)
    (hf : f ≤ 65535) (hcb : c ≤ 65535) (hle : c ≤ f) :
    -1 ≤ ((TIM3_IRQHandler s IrqSource.cc3 c).1).value ∧
    (f ≠ 65535 ∨ c ≠ 0 →
      0 ≤ ((TIM3_IRQHandler s IrqSource.cc3 c).1).value) := by
  have hmod : c % 65536 = c := Nat.mod_eq_of_lt (by omega)
  have hngt : ¬ (f < c) := by omega
  simp [TIM3_IRQHandler, hm, hc, BEGIN, END, hmod, h1, pulseWidth, hngt]
  omega

/-- Witness for the amended C4 at firstEdge = 65535, secondEdge = 1. -/
theorem wraparound_width_nonneg_off_corner_witness :
    -1 ≤ ((TIM3_IRQHandler
        { mode := ECHO, capture := END, value := 0, value_cm := 0,
          IC3Value1 := 65535, IC3Value2 := 0 } IrqSource.cc3 1).1).value ∧
    ((65535 : Nat) ≠ 65535 ∨ (1 : Nat) ≠ 0 →
      0 ≤ ((TIM3_IRQHandler
        { mode := ECHO, capture := END, value := 0, value_cm := 0,
          IC3Value1 := 65535, IC3Value2 := 0 } IrqSource.cc3 1).1).value) :=
  wraparound_width_nonneg_off_corner _ 65535 1 rfl rfl rfl
    (by decide) (by decide) (by decide)

/-- C5: the full cycle fed firstEdge = 100 and secondEdge = 4740
stores width 4639 and publishes distance 199, the truncation of
4639 times 2.5 divided by 58. -/
theorem cycle_100_4740_publishes_199 :
    (runCycle initState
        { triggerFires := true, risingEdge := some 100,
          fallingEdge := some 4740 }).value = 4639 ∧
    iSonarMeasureDistCm (runCycle initState
        { triggerFires := true, risingEdge := some 100,
          fallingEdge := some 4740 }) = 199 := by
  decide

/-- C6: when the trigger-complete wait times out, the task stores
SONAR_BAD_VALUE into the published variable at that point, and the
iteration still proceeds: the capture sub-state is reset to BEGIN, the
echo phase runs on the reset state, and the iteration completes through
the final conversion of line 272 (no stall). -/
theorem trigger_timeout_publishes_bad_value_and_continues
    (s : SonarState) (e : CycleEnv) (h : e.triggerFires = false) :
    (triggerPhase s e).value_cm = SONAR_BAD_VALUE ∧
    (captureReset (triggerPhase s e)).capture = BEGIN ∧
    runCycle s e = echoPhase (captureReset (triggerPhase s e)) e ∧
    (runCycle s e).value_cm = convertDistCm ((runCycle s e).value) := by
  refine ⟨?_, rfl, rfl, runCycle_value_cm s e⟩
  simp [triggerPhase, h]

/-- Witness for C6 with the initial state and a cycle in which no
interrupt fires at all. -/
theorem trigger_timeout_publishes_bad_value_and_continues_witness :
    (triggerPhase initState
        { triggerFires := false, risingEdge := none,
          fallingEdge := none }).value_cm = SONAR_BAD_VALUE ∧
    (captureReset (triggerPhase initState
        { triggerFires := false, risingEdge := none,
          fallingEdge := none })).capture = BEGIN ∧
    runCycle initState
        { triggerFires := false, risingEdge := none, fallingEdge := none } =
      echoPhase (captureReset (triggerPhase initState
        { triggerFires := false, risingEdge := none, fallingEdge := none }))
        { triggerFires := false, risingEdge := none, fallingEdge := none } ∧
    (runCycle initState
        { triggerFires := false, risingEdge := none,
          fallingEdge := none }).value_cm =
      convertDistCm ((runCycle initState
        { triggerFires := false, risingEdge := none,
          fallingEdge := none }).value) :=
  trigger_timeout_publishes_bad_value_and_continues initState
    { triggerFires := false, risingEdge := none, fallingEdge := none } rfl

/-- C7: an update (pulse-complete) interrupt arriving while the mode is
ECHO leaves the whole state unchanged (mode, capture sub-state, edge
timestamps, pulse width, published distance) and does not release the
gate: the handler only clears the pending flag (lines 198-208). -/
theorem spurious_update_in_echo_is_noop (s : SonarState) (cap : Nat)
    (hm : s.mode = ECHO) :
    TIM3_IRQHandler s IrqSource.update cap = (s, false) := by
  simp [TIM3_IRQHandler, hm, ECHO, TRIGGER]

/-- Witness for C7 on a concrete echo-mode state. -/
theorem spurious_update_in_echo_is_noop_witness :
    TIM3_IRQHandler
        { mode := ECHO, capture := END, value := 7, value_cm := 3,
          IC3Value1 := 11, IC3Value2 := 22 } IrqSource.update 5 =
      ({ mode := ECHO, capture := END, value := 7, value_cm := 3,
          IC3Value1 := 11, IC3Value2 := 22 }, false) :=
  spurious_update_in_echo_is_noop _ 5 rfl

/-- C8: every invocation of the interrupt handler moves the shared
mode and capture sub-state forward or not at all: it leaves both
unchanged, or moves mode from TRIGGER to ECHO leaving the sub-state
unchanged, or moves the sub-state from BEGIN to END leaving the mode
unchanged; it never writes either backward. -/
theorem irq_handler_state_monotone (s : SonarState) (src : IrqSource)
    (cap : Nat) :
    ((TIM3_IRQHandler s src cap).1.mode = s.mode ∧
      (TIM3_IRQHandler s src cap).1.capture = s.capture) ∨
    (s.mode = TRIGGER ∧ (TIM3_IRQHandler s src cap).1.mode = ECHO ∧
      (TIM3_IRQHandler s src cap).1.capture = s.capture) ∨
    (s.capture = BEGIN ∧ (TIM3_IRQHandler s src cap).1.capture = END ∧
      (TIM3_IRQHandler s src cap).1.mode = s.mode) := by
  rcases s with ⟨m, c, v, vcm, i1, i2⟩
  cases m <;> cases c <;> cases src <;>
    simp [TIM3_IRQHandler, TRIGGER, ECHO, BEGIN, END]

/-- C9: the published distance of a full cycle is determined by the
delivered interrupt events alone once the cycle has run at least once
with them: running the cycle again from the state the previous
identical cycle produced publishes the identical distance.  In
particular two runs from the same state with the same simulated edges
publish the same value. -/
theorem cycle_idempotent (s : SonarState) (e : CycleEnv) :
    iSonarMeasureDistCm (runCycle (runCycle s e) e) =
      iSonarMeasureDistCm (runCycle s e) := by
  have h1 := runCycle_value s e
  have h2 := runCycle_value (runCycle s e) e
  rcases e with ⟨tf, re, fe⟩
  cases tf <;> rcases re with _ | r <;> rcases fe with _ | f <;>
    simp_all [iSonarMeasureDistCm, runCycle_value_cm]

/-- C10: the last write of every iteration is line 272, so the cycle
always ends with the published distance equal to the conversion of the
stored pulse width; in the no-edge timeout scenario starting from the
initial state (stored width still 0) this publishes 0, overwriting the
SONAR_BAD_VALUE the timeout branch had stored. -/
theorem final_publish_is_conversion_of_stored_width :
    (∀ (s : SonarState) (e : CycleEnv),
        (runCycle s e).value_cm = convertDistCm ((runCycle s e).value)) ∧
    (runCycle initState envNoEdges).value_cm = 0 ∧
    (runCycle initState envNoEdges).value_cm ≠ SONAR_BAD_VALUE :=
  ⟨fun s e => runCycle_value_cm s e, by decide, by decide⟩

end Sonar
